import Mathlib

/-!
# Verification of `comet/cli/score.py` (COMET scoring CLI)

A shallow embedding of the command-line entry point `score_command` from
`comet/cli/score.py`.  The script parses options, validates them, resolves a
dataset (explicit files or a SacreBLEU benchmark), downloads/loads a model,
assembles per-segment records, runs the model's `predict`, prints per-segment
and system scores, and optionally writes a JSON file.

External collaborators (the model library's `download_model`,
`load_from_checkpoint`, `predict`, and SacreBLEU's `get_source_file` /
`get_reference_files`) are opaque in the source; they are modelled as
parameters (`Extern`).  Scores produced by the model are opaque pass-through
values; the embedding is polymorphic in their type `Score`.

The file system is modelled as a partial map from paths to file contents,
a file's content being its list of lines (as produced by `readlines`, with
the trailing newline already dropped; `str.strip` is applied separately,
exactly as the source does).
-/

namespace CometScore

/-- The whitespace characters removed by Python `str.strip()` (ASCII part:
space, tab, newline, carriage return, vertical tab, form feed). -/
def isPySpace (c : Char) : Bool :=
  c = ' ' || c = '\t' || c = '\n' || c = '\r' ||
  c = Char.ofNat 11 || c = Char.ofNat 12

/-- Python `str.strip()` on a line: remove leading and trailing
whitespace. -/
def strip (s : String) : String :=
  String.mk (((s.data.dropWhile isPySpace).reverse.dropWhile isPySpace).reverse)

/-- Does the first character list start with the second? -/
def prefixChars : List Char → List Char → Bool
  | [], _ => true
  | _ :: _, [] => false
  | c :: cs, d :: ds => c = d && prefixChars cs ds

/-- Does `sub` occur contiguously inside `s`?  The empty list occurs in
every list. -/
def containsSub (sub : List Char) : List Char → Bool
  | [] => sub.isEmpty
  | c :: rest => prefixChars sub (c :: rest) || containsSub sub rest

/-- Python substring test `sub in s` (the `in` operator on `str`). -/
def inStr (sub s : String) : Bool :=
  containsSub sub.data s.data

/-- `_REFLESS_MODELS = ["comet-qe"]` (line 49 of the source). -/
def _REFLESS_MODELS : List String := ["comet-qe"]

/-- Helper for `rsplitColon1`: split a character list at its LAST `':'`,
returning the parts before and after it, or `none` when no `':'` occurs. -/
def rsplit1Aux : List Char → Option (List Char × List Char)
  | [] => none
  | c :: cs =>
    match rsplit1Aux cs with
    | some (l, r) => some (c :: l, r)
    | none => if c = ':' then some ([], cs) else none

/-- Python `s.rsplit(":", maxsplit=1)`: split at the last `':'` only.
Returns `[s]` when `s` has no `':'`, and a two-element list otherwise. -/
def rsplitColon1 (s : String) : List String :=
  match rsplit1Aux s.data with
  | none => [s]
  | some (l, r) => [String.mk l, String.mk r]

/-- The value of a field of a per-segment record: the assembled fields are
strings; the augmented `COMET`/`variance` fields hold model scores. -/
inductive Value (Score : Type) where
  | str (s : String)
  | num (x : Score)
deriving DecidableEq, Repr

/-- A per-segment record: a Python `dict` from field name to value, in
insertion order. -/
abbrev Record (Score : Type) := List (String × Value Score)

/-- Python dict assignment `d[k] = v`: replace in place when the key exists,
append at the end otherwise. -/
def dictSet {Score : Type} (r : Record Score) (k : String) (v : Value Score) :
    Record Score :=
  if r.any (fun p => p.1 == k) then
    r.map (fun p => if p.1 == k then (k, v) else p)
  else r ++ [(k, v)]

/-- `data = {"src": sources, "mt": translations}` followed by
`[dict(zip(data, t)) for t in zip(*data.values())]`: one record per zipped
pair (zip truncates to the shorter list). -/
def mkRecords2 {Score : Type} (sources translations : List String) :
    List (Record Score) :=
  (sources.zip translations).map
    (fun p => [("src", Value.str p.1), ("mt", Value.str p.2)])

/-- `data = {"src": sources, "mt": translations, "ref": references}` followed
by `[dict(zip(data, t)) for t in zip(*data.values())]`: one record per zipped
triple (zip truncates to the shortest list). -/
def mkRecords3 {Score : Type} (sources translations references : List String) :
    List (Record Score) :=
  (sources.zip (translations.zip references)).map
    (fun p => [("src", Value.str p.1), ("mt", Value.str p.2.1),
               ("ref", Value.str p.2.2)])

/-- The value of an option declared with `type=Union[bool, str]`
(`--to_json`). -/
inductive BoolOrStr where
  | bool (b : Bool)
  | str (s : String)
deriving DecidableEq, Repr

/-- The value of an option declared with `type=Union[bool, int]`
(`--mc_dropout`). -/
inductive BoolOrInt where
  | bool (b : Bool)
  | int (n : Int)
deriving DecidableEq, Repr

/-- Python truthiness of a `Union[bool, int]` value (`if cfg.mc_dropout:`). -/
def BoolOrInt.truthy : BoolOrInt → Bool
  | .bool b => b
  | .int n => n != 0

/-- The parsed configuration `cfg`, one field per `add_argument` call, with
the parser's defaults.  `num_workers` defaults to `multiprocessing.cpu_count()`,
a machine-dependent value, so that field carries no default here. -/
structure Config where
  sources : Option String := none
  translations : Option String := none
  references : Option String := none
  sacrebleu_dataset : Option String := none
  batch_size : Int := 8
  gpus : Int := 1
  to_json : BoolOrStr := .bool false
  model : String := "wmt20-comet-da"
  model_storage_path : Option String := none
  mc_dropout : BoolOrInt := .bool false
  seed_everything : Int := 12
  num_workers : Int
  disable_cache : Bool := false
  disable_length_batching : Bool := false
deriving DecidableEq, Repr

/-- A Python exception raised by an external SacreBLEU call, as far as the
source distinguishes them: `except ValueError` vs. `except Exception`. -/
inductive PyExc where
  | valueError (msg : String)
  | other (msg : String)
deriving DecidableEq, Repr

/-- The external collaborators of the script: SacreBLEU's file fetchers, the
model hub's `download_model`, and the loaded model's `predict` (with and
without MC dropout).  `predict` takes the data, `batch_size`, `gpus`
(and the `mc_dropout` value in the MC variant), `num_workers`, and
`length_batching` exactly as forwarded by the source. -/
structure Extern (Score : Type) where
  get_source_file : String → String → Except PyExc String
  get_reference_files : String → String → Except PyExc (List String)
  download_model : String → Option String → String
  predict : List (Record Score) → Int → Int → Int → Bool →
    List Score × Score
  predict_mc : List (Record Score) → Int → Int → BoolOrInt → Int → Bool →
    List Score × List Score × Score

/-- The file system: a path resolves to the list of lines of a readable
file, or to nothing. -/
abbrev FS := String → Option (List String)

/-- Observable external actions performed by a run, in order. -/
inductive Event where
  | getSourceFile (testset langpair : String)
  | getReferenceFiles (testset langpair : String)
  | downloadModel (model : String)
  | loadCheckpoint (path : String)
  | openFile (path : String)
  | predictCall (batchSize gpus : Int) (mcDropout : Option BoolOrInt)
deriving DecidableEq, Repr

/-- A line printed to stdout. -/
inductive OutLine (Score : Type) where
  /-- `Segment {i}\tscore: {:.4f}` -/
  | segment (i : Nat) (score : Score)
  /-- `Segment {i}\tscore: {:.4f}\tvariance: {:.4f}` -/
  | segmentMC (i : Nat) (mean std : Score)
  /-- `System score: {:.4f}` -/
  | systemScore (score : Score)
  /-- `Predictions saved in: {path}.` -/
  | savedIn (path : String)
deriving DecidableEq, Repr

/-- How a run of `score_command` ends. -/
inductive Outcome (Score : Type) where
  /-- `parser.error(msg)`: print a usage message and abort. -/
  | usageError (msg : String)
  /-- `print("SacreBLEU error:", e, file=sys.stderr); sys.exit(1)`. -/
  | exitError (msg : String)
  /-- an uncaught Python exception propagates out of `score_command`. -/
  | uncaughtError (msg : String)
  /-- normal termination: the stdout lines and, when written, the JSON
  output file (its path and the dumped records). -/
  | success (stdout : List (OutLine Score))
      (jsonOut : Option (String × List (Record Score)))
deriving DecidableEq, Repr

/-- The usage message of line 122 of the source. -/
def sacrebleuFormatMsg : String :=
  "SacreBLEU testset format must be TESTSET:LANGPAIR, e.g., wmt20:de-en"

/-- The `TypeError` raised when a `None` option is called like a function
(`cfg.translations()` with `--translations` omitted). -/
def noneCallMsg : String := "TypeError: NoneType object is not callable"

/-- Prefix a stage's event trace with the events already performed. -/
def withEvents {Score : Type} (evs : List Event) :
    List Event × Outcome Score → List Event × Outcome Score
  | (evs2, out) => (evs ++ evs2, out)

/-- Lines 113–126 of the source: the SacreBLEU dataset block.  Rejects `-d`
combined with `-s`/`-r`; splits the specifier at its last `:` (a malformed
specifier raises `ValueError` at the tuple unpacking, caught and turned into
a usage error); fetches the source and reference files (a `ValueError` from
the fetchers is caught by the same handler; any other exception is printed
and exits with status 1; `Path_fr` validation of an unreadable path raises a
generic exception; `[0]` on an empty reference-file list raises
`IndexError`).  On success `cfg.sources`/`cfg.references` are overwritten. -/
def resolveDataset {Score : Type} (ext : Extern Score) (fs : FS)
    (cfg : Config) :
    Except (List Event × Outcome Score) (List Event × Config) :=
  match cfg.sacrebleu_dataset with
  | none => .ok ([], cfg)
  | some d =>
    if cfg.references ≠ none ∨ cfg.sources ≠ none then
      .error ([], .usageError
        "Cannot use sacrebleu datasets (-d) with manually-specified datasets (-s and -r)")
    else
      match rsplitColon1 d with
      | [testset, langpair] =>
        match ext.get_source_file testset langpair with
        | .error (.valueError _) =>
          .error ([.getSourceFile testset langpair], .usageError sacrebleuFormatMsg)
        | .error (.other msg) =>
          .error ([.getSourceFile testset langpair], .exitError msg)
        | .ok srcPath =>
          if fs srcPath = none then
            .error ([.getSourceFile testset langpair],
              .exitError ("Path_fr: not a readable file: " ++ srcPath))
          else
            match ext.get_reference_files testset langpair with
            | .error (.valueError _) =>
              .error ([.getSourceFile testset langpair,
                       .getReferenceFiles testset langpair],
                .usageError sacrebleuFormatMsg)
            | .error (.other msg) =>
              .error ([.getSourceFile testset langpair,
                       .getReferenceFiles testset langpair], .exitError msg)
            | .ok [] =>
              .error ([.getSourceFile testset langpair,
                       .getReferenceFiles testset langpair],
                .exitError "IndexError: list index out of range")
            | .ok (r :: _) =>
              if fs r = none then
                .error ([.getSourceFile testset langpair,
                         .getReferenceFiles testset langpair],
                  .exitError ("Path_fr: not a readable file: " ++ r))
              else
                .ok ([.getSourceFile testset langpair,
                      .getReferenceFiles testset langpair],
                  { cfg with sources := some srcPath, references := some r })
      | _ => .error ([], .usageError sacrebleuFormatMsg)

/-- Lines 163–166 / 173–175: the augmentation loop without MC dropout.
`for i, (score, sample) in enumerate(zip(predictions, data)):
sample["COMET"] = score` — records beyond the zipped prefix stay as they
were. -/
def augment {Score : Type} (preds : List Score) (data : List (Record Score)) :
    List (Record Score) :=
  match preds, data with
  | p :: ps, d :: ds => dictSet d "COMET" (Value.num p) :: augment ps ds
  | _, ds => ds

/-- The augmentation loop with MC dropout: each zipped record gets
`COMET` then `variance`. -/
def augmentMC {Score : Type} (means stds : List Score)
    (data : List (Record Score)) : List (Record Score) :=
  match means, stds, data with
  | m :: ms, s :: ss, d :: ds =>
    dictSet (dictSet d "COMET" (Value.num m)) "variance" (Value.num s)
      :: augmentMC ms ss ds
  | _, _, ds => ds

/-- The per-segment stdout lines of the non-MC loop: one line per element of
`zip(predictions, data)`, indexed by `enumerate`. -/
def segLines {Score : Type} (preds : List Score)
    (data : List (Record Score)) : List (OutLine Score) :=
  (preds.zip data).enum.map (fun p => OutLine.segment p.1 p.2.1)

/-- The per-segment stdout lines of the MC-dropout loop: one line per element
of `zip(mean_scores, std_scores, data)`. -/
def segLinesMC {Score : Type} (means stds : List Score)
    (data : List (Record Score)) : List (OutLine Score) :=
  ((means.zip stds).zip data).enum.map
    (fun p => OutLine.segmentMC p.1 p.2.1.1 p.2.1.2)

/-- Lines 177–181: print the system score, then write the JSON file exactly
when `isinstance(cfg.to_json, str)`, followed by the `Predictions saved in`
message. -/
def emitResults {Score : Type} (cfg : Config) (seg : List (OutLine Score))
    (sys_score : Score) (data : List (Record Score)) : Outcome Score :=
  match cfg.to_json with
  | .str p =>
    .success (seg ++ [.systemScore sys_score] ++ [.savedIn p]) (some (p, data))
  | .bool _ => .success (seg ++ [.systemScore sys_score]) none

/-- Lines 158–181: branch on the truthiness of `cfg.mc_dropout`, call the
model's `predict` with the forwarded options, print the per-segment lines,
augment the records in place, and emit the results. -/
def finishPredict {Score : Type} (ext : Extern Score) (cfg : Config)
    (data : List (Record Score)) : List Event × Outcome Score :=
  if cfg.mc_dropout.truthy then
    let res := ext.predict_mc data cfg.batch_size cfg.gpus cfg.mc_dropout
      cfg.num_workers cfg.disable_length_batching
    ([.predictCall cfg.batch_size cfg.gpus (some cfg.mc_dropout)],
      emitResults cfg (segLinesMC res.1 res.2.1 data) res.2.2
        (augmentMC res.1 res.2.1 data))
  else
    let res := ext.predict data cfg.batch_size cfg.gpus
      cfg.num_workers cfg.disable_length_batching
    ([.predictCall cfg.batch_size cfg.gpus none],
      emitResults cfg (segLines res.1 data) res.2 (augment res.1 data))

/-- Lines 144–157: open and strip the sources, translations and (for models
whose name lacks `comet-qe`) references files, assemble the records, then
score.  A `None` path is called like a function (`cfg.translations()`), an
uncaught `TypeError`. -/
def readAndScore {Score : Type} (ext : Extern Score) (fs : FS)
    (cfg : Config) : List Event × Outcome Score :=
  match cfg.sources with
  | none => ([], .uncaughtError noneCallMsg)
  | some sp =>
    match fs sp with
    | none => ([.openFile sp], .uncaughtError ("could not open: " ++ sp))
    | some srcLines =>
      match cfg.translations with
      | none => ([.openFile sp], .uncaughtError noneCallMsg)
      | some tp =>
        match fs tp with
        | none => ([.openFile sp, .openFile tp],
            .uncaughtError ("could not open: " ++ tp))
        | some mtLines =>
          if inStr "comet-qe" cfg.model then
            withEvents [.openFile sp, .openFile tp]
              (finishPredict ext cfg
                (mkRecords2 (srcLines.map strip) (mtLines.map strip)))
          else
            match cfg.references with
            | none => ([.openFile sp, .openFile tp], .uncaughtError noneCallMsg)
            | some rp =>
              match fs rp with
              | none => ([.openFile sp, .openFile tp, .openFile rp],
                  .uncaughtError ("could not open: " ++ rp))
              | some refLines =>
                withEvents [.openFile sp, .openFile tp, .openFile rp]
                  (finishPredict ext cfg
                    (mkRecords3 (srcLines.map strip) (mtLines.map strip)
                      (refLines.map strip)))

/-- Lines 133–142: resolve the model path (`download_model` when the name is
a known metric, otherwise the name is used as a path), load the checkpoint,
then read the data and score. -/
def loadAndScore {Score : Type} (ext : Extern Score)
    (available_metrics : List String) (fs : FS) (cfg : Config) :
    List Event × Outcome Score :=
  if cfg.model ∈ available_metrics then
    withEvents [.downloadModel cfg.model,
        .loadCheckpoint (ext.download_model cfg.model cfg.model_storage_path)]
      (readAndScore ext fs cfg)
  else
    withEvents [.loadCheckpoint cfg.model] (readAndScore ext fs cfg)

/-- The whole of `score_command` after argument parsing (lines 108–181):
the source/dataset check of line 110, the SacreBLEU block, the references
check of lines 128–131 (bypassed when any `_REFLESS_MODELS` entry is a
substring of the model name), then model loading and scoring. -/
def run {Score : Type} (ext : Extern Score) (available_metrics : List String)
    (fs : FS) (cfg : Config) : List Event × Outcome Score :=
  if cfg.sources = none ∧ cfg.sacrebleu_dataset = none then
    ([], .usageError "You must specify a source (-s) or a sacrebleu dataset (-d)")
  else
    match resolveDataset ext fs cfg with
    | .error out => out
    | .ok (evs, cfg2) =>
      if cfg2.references = none ∧
          (_REFLESS_MODELS.any (fun i => inStr i cfg2.model)) = false then
        (evs, .usageError
          (cfg2.model ++ " requires -r/--references or -d/--sacrebleu_dataset."))
      else
        withEvents evs (loadAndScore ext available_metrics fs cfg2)

/-- The record list assembled by lines 150–157 for a given model name and
raw file lines: `src`/`mt` only for reference-free (`comet-qe`) models,
`src`/`mt`/`ref` otherwise, each line stripped. -/
def assembledData {Score : Type} (model : String)
    (srcLines mtLines refLines : List String) : List (Record Score) :=
  if inStr "comet-qe" model then
    mkRecords2 (srcLines.map strip) (mtLines.map strip)
  else
    mkRecords3 (srcLines.map strip) (mtLines.map strip) (refLines.map strip)

/-- A stdout line that is the per-segment score line for segment index `i`
(with or without MC dropout). -/
def isSegIdx {Score : Type} (i : Nat) : OutLine Score → Prop
  | .segment j _ => j = i
  | .segmentMC j _ _ => j = i
  | .systemScore _ => False
  | .savedIn _ => False

/-! ## Concrete sample instances, used to evaluate the embedding -/

/-- A concrete external environment: the model scores every record 7 (and
reports variance 1), one score per record. -/
def sampleExtern : Extern Int where
  get_source_file := fun _ _ => .ok "sb_src.txt"
  get_reference_files := fun _ _ => .ok ["sb_ref.txt"]
  download_model := fun m _ => "ckpt/" ++ m
  predict := fun d _ _ _ _ => (d.map (fun _ => 7), 7)
  predict_mc := fun d _ _ _ _ _ => (d.map (fun _ => 7), d.map (fun _ => 1), 7)

/-- A concrete file system: a 2-line sources file, a 3-line translations
file, and a 2-line references file. -/
def sampleFS : FS := fun p =>
  if p = "src.txt" then some [" a1 ", "a2"]
  else if p = "mt.txt" then some ["b1", "b2 ", "b3"]
  else if p = "ref.txt" then some ["c1", "c2"]
  else none

/-- A concrete file system in which all three files have exactly 2 lines. -/
def evenFS : FS := fun p =>
  if p = "src.txt" then some ["a1", "a2"]
  else if p = "mt.txt" then some ["b1", "b2"]
  else if p = "ref.txt" then some ["c1", "c2"]
  else none

/-- A configuration naming all three files, everything else at the parser
defaults (with one data-loading worker). -/
def sampleCfg : Config :=
  { sources := some "src.txt", translations := some "mt.txt",
    references := some "ref.txt", num_workers := 1 }

/-- A configuration with only sources supplied. -/
def onlySourcesCfg : Config := { sources := some "src.txt", num_workers := 1 }

/-- A configuration with no sources, references, or dataset at all. -/
def emptyCfg : Config := { num_workers := 1 }

/-- A reference-free-model configuration that names its data through a
SacreBLEU dataset and omits `--translations`. -/
def qeDatasetCfg : Config :=
  { emptyCfg with model := "wmt20-comet-qe-da", sacrebleu_dataset := some "wmt20:en-de" }

/-- `qeDatasetCfg` after dataset resolution against `sampleExtern`:
sources and references now point at the fetched files. -/
def qeDatasetCfg2 : Config :=
  { qeDatasetCfg with sources := some "sb_src.txt", references := some "sb_ref.txt" }

/-- A file system that also holds the files fetched for the SacreBLEU
dataset of `sampleExtern`. -/
def sbFS : FS := fun p =>
  if p = "sb_src.txt" then some ["sb src line"]
  else if p = "sb_ref.txt" then some ["sb ref line"]
  else sampleFS p

/-! ## Basic lemmas about the embedding -/

theorem withEvents_snd {Score : Type} (evs : List Event)
    (x : List Event × Outcome Score) : (withEvents evs x).2 = x.2 := by
  cases x; rfl

theorem withEvents_fst {Score : Type} (evs : List Event)
    (x : List Event × Outcome Score) : (withEvents evs x).1 = evs ++ x.1 := by
  cases x; rfl

theorem rsplit1Aux_eq_none {l : List Char} (h : ':' ∉ l) :
    rsplit1Aux l = none := by
  induction l with
  | nil => rfl
  | cons c cs ih =>
    have hc : ¬ c = ':' := fun hc => h (hc ▸ List.mem_cons_self c cs)
    simp only [rsplit1Aux, ih (fun hm => h (List.mem_cons_of_mem c hm))]
    simp [hc]

theorem rsplitColon1_of_no_colon {s : String} (h : ':' ∉ s.data) :
    rsplitColon1 s = [s] := by
  unfold rsplitColon1
  rw [rsplit1Aux_eq_none h]

/-- `finishPredict` performs exactly one external action: the `predict`
call, with the configured batch size and GPU count. -/
theorem finishPredict_fst {Score : Type} (ext : Extern Score) (cfg : Config)
    (data : List (Record Score)) :
    (finishPredict ext cfg data).1 =
      [Event.predictCall cfg.batch_size cfg.gpus
        (if cfg.mc_dropout.truthy then some cfg.mc_dropout else none)] := by
  unfold finishPredict
  split <;> simp_all

theorem finishPredict_snd_of_not_mc {Score : Type} (ext : Extern Score)
    (cfg : Config) (data : List (Record Score))
    (hmc : cfg.mc_dropout.truthy = false) :
    (finishPredict ext cfg data).2 =
      emitResults cfg
        (segLines (ext.predict data cfg.batch_size cfg.gpus
            cfg.num_workers cfg.disable_length_batching).1 data)
        (ext.predict data cfg.batch_size cfg.gpus
            cfg.num_workers cfg.disable_length_batching).2
        (augment (ext.predict data cfg.batch_size cfg.gpus
            cfg.num_workers cfg.disable_length_batching).1 data) := by
  unfold finishPredict
  rw [if_neg (by simp [hmc])]

theorem finishPredict_snd_of_mc {Score : Type} (ext : Extern Score)
    (cfg : Config) (data : List (Record Score))
    (hmc : cfg.mc_dropout.truthy = true) :
    (finishPredict ext cfg data).2 =
      emitResults cfg
        (segLinesMC (ext.predict_mc data cfg.batch_size cfg.gpus cfg.mc_dropout
            cfg.num_workers cfg.disable_length_batching).1
          (ext.predict_mc data cfg.batch_size cfg.gpus cfg.mc_dropout
            cfg.num_workers cfg.disable_length_batching).2.1 data)
        (ext.predict_mc data cfg.batch_size cfg.gpus cfg.mc_dropout
            cfg.num_workers cfg.disable_length_batching).2.2
        (augmentMC (ext.predict_mc data cfg.batch_size cfg.gpus cfg.mc_dropout
            cfg.num_workers cfg.disable_length_batching).1
          (ext.predict_mc data cfg.batch_size cfg.gpus cfg.mc_dropout
            cfg.num_workers cfg.disable_length_batching).2.1 data) := by
  unfold finishPredict
  rw [if_pos (by simp [hmc])]

/-- `dict[k] = v` appends when `k` is not already a key. -/
theorem dictSet_of_not_mem {Score : Type} (r : Record Score) (k : String)
    (v : Value Score) (h : ∀ p ∈ r, p.1 ≠ k) :
    dictSet r k v = r ++ [(k, v)] := by
  have hc : r.any (fun p => p.1 == k) = false := by
    rw [List.any_eq_false]
    intro p hp
    simpa using h p hp
  unfold dictSet
  simp [hc]

theorem augment_eq {Score : Type} (ps : List Score)
    (ds : List (Record Score)) :
    augment ps ds =
      (ds.zip ps).map (fun q => dictSet q.1 "COMET" (Value.num q.2)) ++
        ds.drop ps.length := by
  induction ps generalizing ds with
  | nil => cases ds <;> simp [augment]
  | cons p ps ih =>
    cases ds with
    | nil => simp [augment]
    | cons d ds => simp [augment, ih]

theorem augmentMC_eq {Score : Type} (ms ss : List Score)
    (ds : List (Record Score)) :
    augmentMC ms ss ds =
      (ds.zip (ms.zip ss)).map
        (fun q => dictSet (dictSet q.1 "COMET" (Value.num q.2.1))
          "variance" (Value.num q.2.2)) ++
        ds.drop (min ms.length ss.length) := by
  induction ms generalizing ss ds with
  | nil => cases ss <;> cases ds <;> simp [augmentMC]
  | cons m ms ih =>
    cases ss with
    | nil => cases ds <;> simp [augmentMC]
    | cons s ss =>
      cases ds with
      | nil => simp [augmentMC]
      | cons d ds =>
        simp [augmentMC, ih, Nat.succ_min_succ]

theorem mkRecords3_length {Score : Type} (S T R : List String) :
    (mkRecords3 S T R : List (Record Score)).length =
      min S.length (min T.length R.length) := by
  simp [mkRecords3]

theorem mkRecords2_length {Score : Type} (S T : List String) :
    (mkRecords2 S T : List (Record Score)).length = min S.length T.length := by
  simp [mkRecords2]

theorem mkRecords3_get {Score : Type} (S T R : List String) (i : Nat)
    (h : i < (mkRecords3 S T R : List (Record Score)).length)
    (h1 : i < S.length) (h2 : i < T.length) (h3 : i < R.length) :
    (mkRecords3 S T R : List (Record Score)).get ⟨i, h⟩ =
      [("src", Value.str (S.get ⟨i, h1⟩)),
       ("mt", Value.str (T.get ⟨i, h2⟩)),
       ("ref", Value.str (R.get ⟨i, h3⟩))] := by
  simp [mkRecords3]

theorem mkRecords2_get {Score : Type} (S T : List String) (i : Nat)
    (h : i < (mkRecords2 S T : List (Record Score)).length)
    (h1 : i < S.length) (h2 : i < T.length) :
    (mkRecords2 S T : List (Record Score)).get ⟨i, h⟩ =
      [("src", Value.str (S.get ⟨i, h1⟩)),
       ("mt", Value.str (T.get ⟨i, h2⟩))] := by
  simp [mkRecords2]

theorem mkRecords3_keys {Score : Type} (S T R : List String)
    (r : Record Score) (hr : r ∈ mkRecords3 S T R) :
    r.map Prod.fst = ["src", "mt", "ref"] := by
  simp only [mkRecords3, List.mem_map] at hr
  obtain ⟨p, -, rfl⟩ := hr
  rfl

theorem mkRecords2_keys {Score : Type} (S T : List String)
    (r : Record Score) (hr : r ∈ mkRecords2 S T) :
    r.map Prod.fst = ["src", "mt"] := by
  simp only [mkRecords2, List.mem_map] at hr
  obtain ⟨p, -, rfl⟩ := hr
  rfl

theorem resolveDataset_none {Score : Type} (ext : Extern Score) (fs : FS)
    (cfg : Config) (hd : cfg.sacrebleu_dataset = none) :
    resolveDataset ext fs cfg = .ok ([], cfg) := by
  unfold resolveDataset
  rw [hd]

theorem loadAndScore_snd {Score : Type} (ext : Extern Score)
    (am : List String) (fs : FS) (cfg : Config) :
    (loadAndScore ext am fs cfg).2 = (readAndScore ext fs cfg).2 := by
  unfold loadAndScore
  split <;> rw [withEvents_snd]

/-! ## The claims -/

/-- C2 counterexample: an invocation supplying neither `--references` nor
`--sacrebleu_dataset` (nor `--sources`), with the default (non-reference-free)
model: the program does abort before any download, but with the
missing-source usage message, which does not name the model — refuting the
claim that every such invocation aborts with a message naming the model. -/
theorem c2_counterexample :
    run sampleExtern [] sampleFS emptyCfg =
      ([], Outcome.usageError
        "You must specify a source (-s) or a sacrebleu dataset (-d)") ∧
    inStr emptyCfg.model
      "You must specify a source (-s) or a sacrebleu dataset (-d)" = false := by
  constructor
  · rfl
  · decide

/-- C2 (amended): for every invocation in which a source is supplied but
neither `--references` nor `--sacrebleu_dataset` is, and no entry of
`_REFLESS_MODELS` occurs in the model name, the run aborts with a usage
error whose message starts with the model name, with an empty event trace —
in particular before any model is downloaded or loaded. -/
theorem c2_missing_references_rejected {Score : Type} (ext : Extern Score)
    (am : List String) (fs : FS) (cfg : Config) (sp : String)
    (hs : cfg.sources = some sp) (hr : cfg.references = none)
    (hd : cfg.sacrebleu_dataset = none)
    (hm : (_REFLESS_MODELS.any (fun i => inStr i cfg.model)) = false) :
    run ext am fs cfg =
      ([], .usageError
        (cfg.model ++ " requires -r/--references or -d/--sacrebleu_dataset.")) := by
  unfold run
  rw [resolveDataset_none ext fs cfg hd]
  simp [hs, hr, hd, hm]

theorem c2_missing_references_rejected_witness :
    run sampleExtern [] sampleFS onlySourcesCfg =
      ([], Outcome.usageError
        "wmt20-comet-da requires -r/--references or -d/--sacrebleu_dataset.") :=
  c2_missing_references_rejected sampleExtern [] sampleFS onlySourcesCfg
    "src.txt" rfl rfl rfl (by decide)

/-- C3: for every invocation supplying `--sacrebleu_dataset` together with
`--sources` or `--references`, the run aborts at once with the
mutual-exclusion usage error (and performs no external action). -/
theorem c3_sacrebleu_mutually_exclusive {Score : Type} (ext : Extern Score)
    (am : List String) (fs : FS) (cfg : Config) (d : String)
    (hd : cfg.sacrebleu_dataset = some d)
    (h : cfg.sources ≠ none ∨ cfg.references ≠ none) :
    run ext am fs cfg =
      ([], .usageError
        "Cannot use sacrebleu datasets (-d) with manually-specified datasets (-s and -r)") := by
  have h2 : cfg.references ≠ none ∨ cfg.sources ≠ none := h.symm
  unfold run resolveDataset
  rw [hd]
  simp [hd, h2]

theorem c3_sacrebleu_mutually_exclusive_witness :
    run sampleExtern [] sampleFS
        { sampleCfg with sacrebleu_dataset := some "wmt20:en-de" } =
      ([], Outcome.usageError
        "Cannot use sacrebleu datasets (-d) with manually-specified datasets (-s and -r)") :=
  c3_sacrebleu_mutually_exclusive sampleExtern [] sampleFS
    { sampleCfg with sacrebleu_dataset := some "wmt20:en-de" } "wmt20:en-de"
    rfl (Or.inl (by decide))

/-- C4: for every invocation whose `--sacrebleu_dataset` value contains no
`:` separator, the run aborts with a reported usage error (the `ValueError`
raised at the tuple unpacking of `rsplit` is caught), never with an uncaught
exception. -/
theorem c4_malformed_dataset_reported {Score : Type} (ext : Extern Score)
    (am : List String) (fs : FS) (cfg : Config) (d : String)
    (hd : cfg.sacrebleu_dataset = some d) (hcolon : ':' ∉ d.data) :
    ∃ msg, run ext am fs cfg = ([], .usageError msg) := by
  unfold run resolveDataset
  rw [hd]
  by_cases hmx : cfg.references ≠ none ∨ cfg.sources ≠ none
  · exact ⟨"Cannot use sacrebleu datasets (-d) with manually-specified datasets (-s and -r)",
      by simp [hmx]⟩
  · exact ⟨sacrebleuFormatMsg, by
      simp [hmx, rsplitColon1_of_no_colon hcolon]⟩

theorem c4_malformed_dataset_reported_witness :
    ∃ msg, run sampleExtern [] sampleFS
        { emptyCfg with sacrebleu_dataset := some "wmt20en-de" } =
      ([], Outcome.usageError msg) :=
  c4_malformed_dataset_reported sampleExtern [] sampleFS
    { emptyCfg with sacrebleu_dataset := some "wmt20en-de" } "wmt20en-de"
    rfl (by decide)

/-- C5: with `--batch_size` omitted the parser default is 8 (line 58), so
the batch size forwarded to the model `predict` call on a full concrete run
is 8, not the 32 documented in the module help text — the code contradicts
its own documentation. -/
theorem c5_default_batch_size_is_8_not_32 :
    sampleCfg.batch_size = 8 ∧
    (run sampleExtern [] sampleFS sampleCfg).1 =
      [Event.loadCheckpoint "wmt20-comet-da", Event.openFile "src.txt",
       Event.openFile "mt.txt", Event.openFile "ref.txt",
       Event.predictCall 8 1 none] ∧
    (8 : Int) ≠ 32 := by
  refine ⟨rfl, rfl, by decide⟩

theorem emitResults_json {Score : Type} (cfg : Config)
    (seg : List (OutLine Score)) (sys_score : Score)
    (data : List (Record Score)) (lines : List (OutLine Score))
    (j : Option (String × List (Record Score)))
    (h : emitResults cfg seg sys_score data = .success lines j) :
    (∀ b, cfg.to_json = .bool b → j = none) ∧
    (∀ s, cfg.to_json = .str s → ∃ recs, j = some (s, recs)) := by
  unfold emitResults at h
  constructor
  · intro b hb
    rw [hb] at h
    cases h
    rfl
  · intro s hs
    rw [hs] at h
    cases h
    exact ⟨data, rfl⟩

theorem finishPredict_success_json {Score : Type} (ext : Extern Score)
    (cfg : Config) (data : List (Record Score))
    (lines : List (OutLine Score))
    (j : Option (String × List (Record Score)))
    (h : (finishPredict ext cfg data).2 = .success lines j) :
    (∀ b, cfg.to_json = .bool b → j = none) ∧
    (∀ s, cfg.to_json = .str s → ∃ recs, j = some (s, recs)) := by
  unfold finishPredict at h
  by_cases hmc : cfg.mc_dropout.truthy = true
  · rw [if_pos hmc] at h
    exact emitResults_json _ _ _ _ _ _ h
  · rw [if_neg hmc] at h
    exact emitResults_json _ _ _ _ _ _ h

theorem readAndScore_success_json {Score : Type} (ext : Extern Score)
    (fs : FS) (cfg : Config) (lines : List (OutLine Score))
    (j : Option (String × List (Record Score)))
    (h : (readAndScore ext fs cfg).2 = .success lines j) :
    (∀ b, cfg.to_json = .bool b → j = none) ∧
    (∀ s, cfg.to_json = .str s → ∃ recs, j = some (s, recs)) := by
  unfold readAndScore at h
  repeat' split at h
  all_goals (try simp only [withEvents_snd] at h)
  all_goals first
    | exact absurd h (by simp)
    | exact finishPredict_success_json _ _ _ _ _ h

theorem resolveDataset_ok_same_options {Score : Type} (ext : Extern Score)
    (fs : FS) (cfg : Config) (evs : List Event) (cfg2 : Config)
    (h : resolveDataset ext fs cfg = .ok (evs, cfg2)) :
    cfg2.to_json = cfg.to_json ∧ cfg2.model = cfg.model ∧
    cfg2.mc_dropout = cfg.mc_dropout ∧ cfg2.batch_size = cfg.batch_size ∧
    cfg2.gpus = cfg.gpus ∧ cfg2.translations = cfg.translations := by
  unfold resolveDataset at h
  repeat' split at h
  all_goals (try simp only [Except.ok.injEq, Prod.mk.injEq] at h)
  all_goals first
    | (obtain ⟨-, h2⟩ := h
       subst h2
       exact ⟨rfl, rfl, rfl, rfl, rfl, rfl⟩)
    | exact absurd h (by simp)

theorem resolveDataset_error_not_success {Score : Type} (ext : Extern Score)
    (fs : FS) (cfg : Config) (out : List Event × Outcome Score)
    (h : resolveDataset ext fs cfg = .error out) :
    ∀ lines j, out.2 ≠ Outcome.success lines j := by
  unfold resolveDataset at h
  repeat' split at h
  all_goals (try simp only [Except.error.injEq] at h)
  all_goals first
    | (subst h
       intro lines j hc
       simp at hc)
    | exact absurd h (by simp)

/-- C9: the JSON results file is written exactly when the `--to_json` value
is a string: for every run that ends successfully, a boolean `to_json`
(in particular `True`) yields no output file, and a string `to_json` yields
an output file at that path. -/
theorem c9_json_written_iff_to_json_str {Score : Type} (ext : Extern Score)
    (am : List String) (fs : FS) (cfg : Config)
    (lines : List (OutLine Score))
    (j : Option (String × List (Record Score)))
    (h : (run ext am fs cfg).2 = .success lines j) :
    (∀ b, cfg.to_json = .bool b → j = none) ∧
    (∀ s, cfg.to_json = .str s → ∃ recs, j = some (s, recs)) := by
  unfold run at h
  split at h
  · simp at h
  · split at h
    · rename_i out hres
      exact absurd h (resolveDataset_error_not_success ext fs cfg out hres _ _)
    · rename_i p evs cfg2 hres
      split at h
      · simp at h
      · rw [withEvents_snd, loadAndScore_snd] at h
        have hsame := resolveDataset_ok_same_options ext fs cfg evs cfg2 hres
        have := readAndScore_success_json ext fs cfg2 lines j h
        rw [hsame.1] at this
        exact this

theorem c9_json_written_iff_to_json_str_witness :
    (∀ b, ({ sampleCfg with to_json := BoolOrStr.str "out.json" } : Config).to_json =
        BoolOrStr.bool b →
      (some ("out.json",
        [[("src", Value.str "a1"), ("mt", Value.str "b1"),
          ("ref", Value.str "c1"), ("COMET", Value.num (7 : Int))],
         [("src", Value.str "a2"), ("mt", Value.str "b2"),
          ("ref", Value.str "c2"), ("COMET", Value.num 7)]]) :
        Option (String × List (Record Int))) = none) ∧
    (∀ s, ({ sampleCfg with to_json := BoolOrStr.str "out.json" } : Config).to_json =
        BoolOrStr.str s →
      ∃ recs, (some ("out.json",
        [[("src", Value.str "a1"), ("mt", Value.str "b1"),
          ("ref", Value.str "c1"), ("COMET", Value.num (7 : Int))],
         [("src", Value.str "a2"), ("mt", Value.str "b2"),
          ("ref", Value.str "c2"), ("COMET", Value.num 7)]]) :
        Option (String × List (Record Int))) = some (s, recs)) :=
  c9_json_written_iff_to_json_str sampleExtern [] sampleFS
    { sampleCfg with to_json := BoolOrStr.str "out.json" }
    [OutLine.segment 0 7, OutLine.segment 1 7, OutLine.systemScore 7,
     OutLine.savedIn "out.json"] _ (by decide)

/-- C10 counterexample: the invocation supplying only `--sources` (with the
default model and `--translations` omitted) does NOT pass all validation
checks and does not reach the translations file: it aborts with the
missing-references usage error, refuting the claim's universal statement. -/
theorem c10_counterexample :
    run sampleExtern [] sampleFS onlySourcesCfg =
      ([], Outcome.usageError
        "wmt20-comet-da requires -r/--references or -d/--sacrebleu_dataset.") ∧
    onlySourcesCfg.translations = none := by
  exact ⟨rfl, rfl⟩

/-- C10 (amended): omitting `--translations` is never itself caught by
argument validation: every invocation that passes the remaining checks —
a source or a dataset supplied (line 110), the SacreBLEU block succeeding
when a dataset is involved (no conflict, lines 113–126), and references
present or a reference-free model (line 128) — with `--translations`
omitted proceeds through model resolution and checkpoint loading and then
fails with an uncaught `TypeError` when the `None` translations path is
called, rather than aborting with a usage message.  `cfg2` is the
configuration after dataset resolution (equal to `cfg` when no dataset is
given). -/
theorem c10_missing_translations_uncaught {Score : Type} (ext : Extern Score)
    (am : List String) (fs : FS) (cfg : Config) (evs : List Event)
    (cfg2 : Config) (sp : String) (S : List String)
    (ht : cfg.translations = none)
    (hsrc : cfg.sources ≠ none ∨ cfg.sacrebleu_dataset ≠ none)
    (hres : resolveDataset ext fs cfg = .ok (evs, cfg2))
    (href : cfg2.references ≠ none ∨
      (_REFLESS_MODELS.any (fun i => inStr i cfg2.model)) = true)
    (hs2 : cfg2.sources = some sp) (hS : fs sp = some S) :
    (run ext am fs cfg).2 = .uncaughtError noneCallMsg ∧
    Event.loadCheckpoint
        (if cfg2.model ∈ am then
          ext.download_model cfg2.model cfg2.model_storage_path
        else cfg2.model) ∈ (run ext am fs cfg).1 := by
  have hc1 : ¬(cfg.sources = none ∧ cfg.sacrebleu_dataset = none) := by
    rintro ⟨h1, h2⟩
    rcases hsrc with h | h
    · exact h h1
    · exact h h2
  have hc2 : ¬(cfg2.references = none ∧
      (_REFLESS_MODELS.any (fun i => inStr i cfg2.model)) = false) := by
    rintro ⟨h1, h2⟩
    rcases href with h | h
    · exact h h1
    · rw [h] at h2
      exact absurd h2 (by decide)
  have ht2 : cfg2.translations = none := by
    rw [(resolveDataset_ok_same_options ext fs cfg evs cfg2 hres).2.2.2.2.2,
      ht]
  have hread : readAndScore ext fs cfg2 =
      ([.openFile sp], .uncaughtError noneCallMsg) := by
    unfold readAndScore
    rw [hs2]
    simp [hS, ht2]
  unfold run
  rw [hres]
  simp only []
  rw [if_neg hc1, if_neg hc2]
  constructor
  · rw [withEvents_snd, loadAndScore_snd, hread]
  · rw [withEvents_fst]
    unfold loadAndScore
    by_cases hmem : cfg2.model ∈ am
    · rw [if_pos hmem, if_pos hmem, withEvents_fst]
      simp
    · rw [if_neg hmem, if_neg hmem, withEvents_fst]
      simp

theorem c10_missing_translations_uncaught_witness :
    ((run sampleExtern [] sampleFS
          { sampleCfg with translations := none }).2 =
        Outcome.uncaughtError noneCallMsg ∧
      Event.loadCheckpoint
          (if ({ sampleCfg with translations := none } : Config).model ∈
              ([] : List String) then
            sampleExtern.download_model
              ({ sampleCfg with translations := none } : Config).model
              ({ sampleCfg with translations := none } :
                Config).model_storage_path
          else ({ sampleCfg with translations := none } : Config).model) ∈
        (run sampleExtern [] sampleFS
          { sampleCfg with translations := none }).1) ∧
    ((run sampleExtern [] sbFS qeDatasetCfg).2 =
        Outcome.uncaughtError noneCallMsg ∧
      Event.loadCheckpoint
          (if qeDatasetCfg2.model ∈ ([] : List String) then
            sampleExtern.download_model qeDatasetCfg2.model
              qeDatasetCfg2.model_storage_path
          else qeDatasetCfg2.model) ∈
        (run sampleExtern [] sbFS qeDatasetCfg).1) :=
  ⟨c10_missing_translations_uncaught sampleExtern [] sampleFS
      { sampleCfg with translations := none } []
      { sampleCfg with translations := none } "src.txt" [" a1 ", "a2"]
      rfl (Or.inl (by decide)) rfl (Or.inl (by decide)) rfl rfl,
   c10_missing_translations_uncaught sampleExtern [] sbFS
      qeDatasetCfg
      [Event.getSourceFile "wmt20" "en-de",
       Event.getReferenceFiles "wmt20" "en-de"]
      qeDatasetCfg2 "sb_src.txt" ["sb src line"]
      rfl (Or.inr (by decide)) rfl (Or.inr (by decide)) rfl rfl⟩

theorem augment_length {Score : Type} (ps : List Score)
    (ds : List (Record Score)) : (augment ps ds).length = ds.length := by
  induction ps generalizing ds with
  | nil => cases ds <;> rfl
  | cons p ps ih =>
    cases ds with
    | nil => rfl
    | cons d ds => simp [augment, ih]

theorem augmentMC_length {Score : Type} (ms ss : List Score)
    (ds : List (Record Score)) : (augmentMC ms ss ds).length = ds.length := by
  induction ms generalizing ss ds with
  | nil => cases ss <;> cases ds <;> rfl
  | cons m ms ih =>
    cases ss with
    | nil => cases ds <;> rfl
    | cons s ss =>
      cases ds with
      | nil => rfl
      | cons d ds => simp [augmentMC, ih]

theorem emitResults_of_str {Score : Type} (cfg : Config)
    (seg : List (OutLine Score)) (sys_score : Score)
    (data : List (Record Score)) (p : String)
    (hj : cfg.to_json = .str p) :
    emitResults cfg seg sys_score data =
      .success (seg ++ [.systemScore sys_score] ++ [.savedIn p])
        (some (p, data)) := by
  unfold emitResults
  rw [hj]

theorem emitResults_of_bool {Score : Type} (cfg : Config)
    (seg : List (OutLine Score)) (sys_score : Score)
    (data : List (Record Score)) (b : Bool)
    (hj : cfg.to_json = .bool b) :
    emitResults cfg seg sys_score data =
      .success (seg ++ [.systemScore sys_score]) none := by
  unfold emitResults
  rw [hj]

/-- On the explicit-files path with all three files readable, the outcome of
the whole run is that of `finishPredict` on the assembled records. -/
theorem run_snd_files {Score : Type} (ext : Extern Score)
    (am : List String) (fs : FS) (cfg : Config) (sp tp rp : String)
    (S T R : List String)
    (hs : cfg.sources = some sp) (ht : cfg.translations = some tp)
    (hr : cfg.references = some rp) (hd : cfg.sacrebleu_dataset = none)
    (hS : fs sp = some S) (hT : fs tp = some T) (hR : fs rp = some R) :
    (run ext am fs cfg).2 =
      (finishPredict ext cfg (assembledData cfg.model S T R)).2 := by
  have hread : (readAndScore ext fs cfg).2 =
      (finishPredict ext cfg (assembledData cfg.model S T R)).2 := by
    unfold readAndScore assembledData
    by_cases hq : inStr "comet-qe" cfg.model = true
    · simp [hs, hS, ht, hT, hq, withEvents_snd]
    · simp [hs, hS, ht, hT, hr, hR, hq, withEvents_snd]
  unfold run
  rw [resolveDataset_none ext fs cfg hd]
  simp only [hs, hd, hr, withEvents_snd, loadAndScore_snd]
  simpa [withEvents_snd, loadAndScore_snd] using hread

theorem assembledData_length {Score : Type} (model : String)
    (S T R : List String) :
    (assembledData model S T R : List (Record Score)).length =
      (if inStr "comet-qe" model then min S.length T.length
       else min S.length (min T.length R.length)) := by
  unfold assembledData
  split <;> simp [mkRecords2_length, mkRecords3_length]

/-- Every key of every assembled record is `src`, `mt` or `ref`. -/
theorem assembledData_keys {Score : Type} (model : String)
    (S T R : List String) (r : Record Score)
    (hr : r ∈ assembledData model S T R) :
    ∀ p ∈ r, p.1 = "src" ∨ p.1 = "mt" ∨ p.1 = "ref" := by
  intro p hp
  unfold assembledData at hr
  split at hr
  · have hk := mkRecords2_keys _ _ r hr
    have : p.1 ∈ r.map Prod.fst := List.mem_map_of_mem _ hp
    rw [hk] at this
    simpa using Or.imp_right Or.inl (by simpa using this)
  · have hk := mkRecords3_keys _ _ _ r hr
    have : p.1 ∈ r.map Prod.fst := List.mem_map_of_mem _ hp
    rw [hk] at this
    simpa using this

/-- `COMET` and `variance` are fresh in every assembled record. -/
theorem assembledData_fresh {Score : Type} (model : String)
    (S T R : List String) (r : Record Score)
    (hr : r ∈ assembledData model S T R) :
    ∀ p ∈ r, p.1 ≠ "COMET" ∧ p.1 ≠ "variance" := by
  intro p hp
  rcases assembledData_keys model S T R r hr p hp with h | h | h <;>
    rw [h] <;> exact ⟨by decide, by decide⟩

theorem augment_getElem {Score : Type} (ps : List Score)
    (ds : List (Record Score)) (i : Nat) (hd : i < ds.length)
    (hp : i < ps.length) (hi : i < (augment ps ds).length) :
    (augment ps ds).get ⟨i, hi⟩ =
      dictSet (ds.get ⟨i, hd⟩) "COMET" (Value.num (ps.get ⟨i, hp⟩)) := by
  induction ps generalizing ds i with
  | nil => simp at hp
  | cons p ps ih =>
    cases ds with
    | nil => simp at hd
    | cons d ds =>
      cases i with
      | zero => rfl
      | succ i =>
        exact ih ds i (Nat.lt_of_succ_lt_succ hd)
          (Nat.lt_of_succ_lt_succ hp) (by simpa [augment] using hi)

theorem augmentMC_getElem {Score : Type} (ms ss : List Score)
    (ds : List (Record Score)) (i : Nat) (hd : i < ds.length)
    (hmi : i < ms.length) (hsi : i < ss.length)
    (hi : i < (augmentMC ms ss ds).length) :
    (augmentMC ms ss ds).get ⟨i, hi⟩ =
      dictSet (dictSet (ds.get ⟨i, hd⟩) "COMET" (Value.num (ms.get ⟨i, hmi⟩)))
        "variance" (Value.num (ss.get ⟨i, hsi⟩)) := by
  induction ms generalizing ss ds i with
  | nil => simp at hmi
  | cons m ms ih =>
    cases ss with
    | nil => simp at hsi
    | cons sv ss =>
      cases ds with
      | nil => simp at hd
      | cons d ds =>
        cases i with
        | zero => rfl
        | succ i =>
          exact ih ss ds i (Nat.lt_of_succ_lt_succ hd)
            (Nat.lt_of_succ_lt_succ hmi) (Nat.lt_of_succ_lt_succ hsi)
            (by simpa [augmentMC] using hi)

/-- With one prediction per record and `COMET` fresh, the `i`-th augmented
record is the `i`-th input record with `("COMET", score)` appended. -/
theorem augment_get_of_fresh {Score : Type} (ps : List Score)
    (ds : List (Record Score)) (hlen : ps.length = ds.length)
    (hfresh : ∀ r ∈ ds, ∀ p ∈ r, p.1 ≠ "COMET")
    (i : Nat) (hi : i < (augment ps ds).length) :
    ∃ (hd : i < ds.length) (hp : i < ps.length),
      (augment ps ds).get ⟨i, hi⟩ =
        ds.get ⟨i, hd⟩ ++ [("COMET", Value.num (ps.get ⟨i, hp⟩))] := by
  have hd : i < ds.length := by rwa [augment_length] at hi
  have hp : i < ps.length := by rwa [hlen]
  refine ⟨hd, hp, ?_⟩
  have hfr : ∀ p ∈ ds.get ⟨i, hd⟩, p.1 ≠ "COMET" :=
    hfresh _ (List.get_mem ds i hd)
  rw [augment_getElem ps ds i hd hp hi]
  exact dictSet_of_not_mem _ _ _ hfr

/-- With one mean and one std per record and `COMET`/`variance` fresh, the
`i`-th MC-augmented record is the `i`-th input record with both fields
appended, in that order. -/
theorem augmentMC_get_of_fresh {Score : Type} (ms ss : List Score)
    (ds : List (Record Score)) (hm : ms.length = ds.length)
    (hss : ss.length = ds.length)
    (hfresh : ∀ r ∈ ds, ∀ p ∈ r, p.1 ≠ "COMET" ∧ p.1 ≠ "variance")
    (i : Nat) (hi : i < (augmentMC ms ss ds).length) :
    ∃ (hd : i < ds.length) (hmi : i < ms.length) (hsi : i < ss.length),
      (augmentMC ms ss ds).get ⟨i, hi⟩ =
        ds.get ⟨i, hd⟩ ++
          [("COMET", Value.num (ms.get ⟨i, hmi⟩)),
           ("variance", Value.num (ss.get ⟨i, hsi⟩))] := by
  have hd : i < ds.length := by rwa [augmentMC_length] at hi
  have hmi : i < ms.length := by rwa [hm]
  have hsi : i < ss.length := by rwa [hss]
  refine ⟨hd, hmi, hsi, ?_⟩
  have hfr : ∀ p ∈ ds.get ⟨i, hd⟩, p.1 ≠ "COMET" ∧ p.1 ≠ "variance" :=
    hfresh _ (List.get_mem ds i hd)
  rw [augmentMC_getElem ms ss ds i hd hmi hsi hi]
  have h1 : dictSet (ds.get ⟨i, hd⟩) "COMET" (Value.num (ms.get ⟨i, hmi⟩)) =
      ds.get ⟨i, hd⟩ ++ [("COMET", Value.num (ms.get ⟨i, hmi⟩))] :=
    dictSet_of_not_mem _ _ _ (fun p hp => (hfr p hp).1)
  rw [h1]
  have h2 : dictSet
        (ds.get ⟨i, hd⟩ ++ [("COMET", Value.num (ms.get ⟨i, hmi⟩))])
        "variance" (Value.num (ss.get ⟨i, hsi⟩)) =
      (ds.get ⟨i, hd⟩ ++ [("COMET", Value.num (ms.get ⟨i, hmi⟩))]) ++
        [("variance", Value.num (ss.get ⟨i, hsi⟩))] := by
    refine dictSet_of_not_mem _ _ _ ?_
    intro p hp
    rcases List.mem_append.mp hp with hp | hp
    · exact (hfr p hp).2
    · simp only [List.mem_singleton] at hp
      rw [hp]
      exact (by decide : ("COMET" : String) ≠ "variance")
  rw [h2, List.append_assoc]
  rfl

theorem segLines_length {Score : Type} (ps : List Score)
    (ds : List (Record Score)) :
    (segLines ps ds).length = min ps.length ds.length := by
  simp [segLines]

theorem segLinesMC_length {Score : Type} (ms ss : List Score)
    (ds : List (Record Score)) :
    (segLinesMC ms ss ds).length = min (min ms.length ss.length) ds.length := by
  simp [segLinesMC]

theorem segLines_get {Score : Type} (ps : List Score)
    (ds : List (Record Score)) (i : Nat)
    (hi : i < (segLines ps ds).length) :
    ∃ sc, (segLines ps ds).get ⟨i, hi⟩ = OutLine.segment i sc := by
  refine ⟨((ps.zip ds).get ⟨i, by simpa [segLines] using hi⟩).1, ?_⟩
  simp only [segLines, List.get_eq_getElem, List.getElem_map,
    List.getElem_enum]

theorem segLinesMC_get {Score : Type} (ms ss : List Score)
    (ds : List (Record Score)) (i : Nat)
    (hi : i < (segLinesMC ms ss ds).length) :
    ∃ mean std, (segLinesMC ms ss ds).get ⟨i, hi⟩ =
      OutLine.segmentMC i mean std := by
  refine ⟨(((ms.zip ss).zip ds).get
      ⟨i, by simpa [segLinesMC] using hi⟩).1.1,
    (((ms.zip ss).zip ds).get ⟨i, by simpa [segLinesMC] using hi⟩).1.2, ?_⟩
  simp only [segLinesMC, List.get_eq_getElem, List.getElem_map,
    List.getElem_enum]

theorem segLines_shape {Score : Type} (ps : List Score)
    (ds : List (Record Score)) (l : OutLine Score)
    (hl : l ∈ segLines ps ds) : ∃ i sc, l = OutLine.segment i sc := by
  simp only [segLines, List.mem_map] at hl
  obtain ⟨p, -, rfl⟩ := hl
  exact ⟨_, _, rfl⟩

theorem segLinesMC_shape {Score : Type} (ms ss : List Score)
    (ds : List (Record Score)) (l : OutLine Score)
    (hl : l ∈ segLinesMC ms ss ds) :
    ∃ i mean std, l = OutLine.segmentMC i mean std := by
  simp only [segLinesMC, List.mem_map] at hl
  obtain ⟨p, -, rfl⟩ := hl
  exact ⟨_, _, _, rfl⟩

/-- `emitResults` always succeeds, printing the segment lines, then the
system-score line, then at most a `Predictions saved in` line. -/
theorem emitResults_shape {Score : Type} (cfg : Config)
    (seg : List (OutLine Score)) (sys_score : Score)
    (data : List (Record Score)) :
    ∃ rest j, emitResults cfg seg sys_score data =
        .success (seg ++ [OutLine.systemScore sys_score] ++ rest) j ∧
      ∀ l ∈ rest, ∃ p, l = OutLine.savedIn p := by
  unfold emitResults
  split
  · refine ⟨[.savedIn _], _, rfl, ?_⟩
    intro l hl
    simp only [List.mem_singleton] at hl
    exact ⟨_, hl⟩
  · exact ⟨[], none, by simp, by simp⟩

/-- C8: when the three files have differing line counts, no error is raised:
the run succeeds and assembles, scores, and dumps exactly as many records as
the shortest zipped file has lines (sources/translations for a
reference-free model, all three otherwise); trailing lines are discarded. -/
theorem c8_truncates_to_shortest {Score : Type} (ext : Extern Score)
    (am : List String) (fs : FS) (cfg : Config) (sp tp rp jp : String)
    (S T R : List String)
    (hs : cfg.sources = some sp) (ht : cfg.translations = some tp)
    (hr : cfg.references = some rp) (hd : cfg.sacrebleu_dataset = none)
    (hj : cfg.to_json = .str jp)
    (hS : fs sp = some S) (hT : fs tp = some T) (hR : fs rp = some R) :
    ∃ lines recs,
      (run ext am fs cfg).2 = .success lines (some (jp, recs)) ∧
      recs.length =
        (if inStr "comet-qe" cfg.model then min S.length T.length
         else min S.length (min T.length R.length)) := by
  rw [run_snd_files ext am fs cfg sp tp rp S T R hs ht hr hd hS hT hR]
  cases hmc : cfg.mc_dropout.truthy with
  | true =>
    rw [finishPredict_snd_of_mc ext cfg _ hmc,
      emitResults_of_str _ _ _ _ _ hj]
    exact ⟨_, _, rfl, by rw [augmentMC_length, assembledData_length]⟩
  | false =>
    rw [finishPredict_snd_of_not_mc ext cfg _ hmc,
      emitResults_of_str _ _ _ _ _ hj]
    exact ⟨_, _, rfl, by rw [augment_length, assembledData_length]⟩

theorem c8_truncates_to_shortest_witness :
    ∃ lines recs,
      (run sampleExtern [] sampleFS
          { sampleCfg with to_json := BoolOrStr.str "out.json" }).2 =
        Outcome.success lines (some ("out.json", recs)) ∧
      recs.length =
        (if inStr "comet-qe"
            ({ sampleCfg with to_json := BoolOrStr.str "out.json" } :
              Config).model then
          min ([" a1 ", "a2"] : List String).length
            (["b1", "b2 ", "b3"] : List String).length
        else
          min ([" a1 ", "a2"] : List String).length
            (min (["b1", "b2 ", "b3"] : List String).length
              (["c1", "c2"] : List String).length)) :=
  c8_truncates_to_shortest sampleExtern [] sampleFS
    { sampleCfg with to_json := BoolOrStr.str "out.json" }
    "src.txt" "mt.txt" "ref.txt" "out.json"
    [" a1 ", "a2"] ["b1", "b2 ", "b3"] ["c1", "c2"]
    rfl rfl rfl rfl rfl rfl rfl rfl

/-- C1: when the three files each have `n` lines and the model returns one
score (and, under MC dropout, one std) per record, the JSON file written by
a successful run holds exactly `n` records, each being the corresponding
assembled input record with a `COMET` field appended (and additionally a
`variance` field when MC dropout is enabled). -/
theorem c1_json_one_record_per_segment {Score : Type} (ext : Extern Score)
    (am : List String) (fs : FS) (cfg : Config) (sp tp rp jp : String)
    (S T R : List String) (n : Nat)
    (hs : cfg.sources = some sp) (ht : cfg.translations = some tp)
    (hr : cfg.references = some rp) (hd : cfg.sacrebleu_dataset = none)
    (hj : cfg.to_json = .str jp)
    (hS : fs sp = some S) (hT : fs tp = some T) (hR : fs rp = some R)
    (hSn : S.length = n) (hTn : T.length = n) (hRn : R.length = n)
    (hp : ∀ d : List (Record Score),
      ((ext.predict d cfg.batch_size cfg.gpus cfg.num_workers
        cfg.disable_length_batching).1).length = d.length)
    (hpm : ∀ d : List (Record Score),
      ((ext.predict_mc d cfg.batch_size cfg.gpus cfg.mc_dropout
        cfg.num_workers cfg.disable_length_batching).1).length = d.length ∧
      ((ext.predict_mc d cfg.batch_size cfg.gpus cfg.mc_dropout
        cfg.num_workers cfg.disable_length_batching).2.1).length = d.length) :
    ∃ lines recs,
      (run ext am fs cfg).2 = .success lines (some (jp, recs)) ∧
      recs.length = n ∧
      ∀ i (hi : i < recs.length),
        ∃ (hb : i < (assembledData cfg.model S T R : List (Record Score)).length),
          (cfg.mc_dropout.truthy = true →
            ∃ sc v, recs.get ⟨i, hi⟩ =
              (assembledData cfg.model S T R).get ⟨i, hb⟩ ++
                [("COMET", Value.num sc), ("variance", Value.num v)]) ∧
          (cfg.mc_dropout.truthy = false →
            ∃ sc, recs.get ⟨i, hi⟩ =
              (assembledData cfg.model S T R).get ⟨i, hb⟩ ++
                [("COMET", Value.num sc)]) := by
  have hlen : (assembledData cfg.model S T R : List (Record Score)).length = n := by
    rw [assembledData_length, hSn, hTn, hRn]
    split <;> simp
  rw [run_snd_files ext am fs cfg sp tp rp S T R hs ht hr hd hS hT hR]
  cases hmc : cfg.mc_dropout.truthy with
  | true =>
    rw [finishPredict_snd_of_mc ext cfg _ hmc,
      emitResults_of_str _ _ _ _ _ hj]
    refine ⟨_, _, rfl, by rw [augmentMC_length, hlen], ?_⟩
    intro i hi
    obtain ⟨hd2, hmi, hsi, heq⟩ := augmentMC_get_of_fresh _ _ _
      ((hpm (assembledData cfg.model S T R)).1)
      ((hpm (assembledData cfg.model S T R)).2)
      (assembledData_fresh cfg.model S T R) i hi
    exact ⟨hd2, fun _ => ⟨_, _, heq⟩, fun hc => absurd hc (by decide)⟩
  | false =>
    rw [finishPredict_snd_of_not_mc ext cfg _ hmc,
      emitResults_of_str _ _ _ _ _ hj]
    refine ⟨_, _, rfl, by rw [augment_length, hlen], ?_⟩
    intro i hi
    obtain ⟨hd2, hp2, heq⟩ := augment_get_of_fresh _ _
      (hp (assembledData cfg.model S T R))
      (fun r hr p hp2 => (assembledData_fresh cfg.model S T R r hr p hp2).1)
      i hi
    exact ⟨hd2, fun hc => absurd hc (by decide), fun _ => ⟨_, heq⟩⟩

theorem c1_json_one_record_per_segment_witness :
    ∃ lines recs,
      (run sampleExtern [] evenFS
          { sampleCfg with to_json := BoolOrStr.str "out.json" }).2 =
        Outcome.success lines (some ("out.json", recs)) ∧
      recs.length = 2 ∧
      ∀ i (hi : i < recs.length),
        ∃ (hb : i < (assembledData
            ({ sampleCfg with to_json := BoolOrStr.str "out.json" } :
              Config).model ["a1", "a2"] ["b1", "b2"] ["c1", "c2"] :
            List (Record Int)).length),
          (({ sampleCfg with to_json := BoolOrStr.str "out.json" } :
              Config).mc_dropout.truthy = true →
            ∃ sc v, recs.get ⟨i, hi⟩ =
              (assembledData
                ({ sampleCfg with to_json := BoolOrStr.str "out.json" } :
                  Config).model ["a1", "a2"] ["b1", "b2"]
                ["c1", "c2"]).get ⟨i, hb⟩ ++
                [("COMET", Value.num sc), ("variance", Value.num v)]) ∧
          (({ sampleCfg with to_json := BoolOrStr.str "out.json" } :
              Config).mc_dropout.truthy = false →
            ∃ sc, recs.get ⟨i, hi⟩ =
              (assembledData
                ({ sampleCfg with to_json := BoolOrStr.str "out.json" } :
                  Config).model ["a1", "a2"] ["b1", "b2"]
                ["c1", "c2"]).get ⟨i, hb⟩ ++
                [("COMET", Value.num sc)]) :=
  c1_json_one_record_per_segment sampleExtern [] evenFS
    { sampleCfg with to_json := BoolOrStr.str "out.json" }
    "src.txt" "mt.txt" "ref.txt" "out.json"
    ["a1", "a2"] ["b1", "b2"] ["c1", "c2"] 2
    rfl rfl rfl rfl rfl rfl rfl rfl rfl rfl rfl
    (fun d => by simp [sampleExtern])
    (fun d => ⟨by simp [sampleExtern], by simp [sampleExtern]⟩)

/-- C7: on the successful runs above, stdout is exactly one per-segment
score line for each of the `n` scored records, carrying indices
`0, 1, ...` in input order, followed by exactly one `System score` line
(followed at most by the `Predictions saved in` message). -/
theorem c7_stdout_segments_then_system {Score : Type} (ext : Extern Score)
    (am : List String) (fs : FS) (cfg : Config) (sp tp rp : String)
    (S T R : List String) (n : Nat)
    (hs : cfg.sources = some sp) (ht : cfg.translations = some tp)
    (hr : cfg.references = some rp) (hd : cfg.sacrebleu_dataset = none)
    (hS : fs sp = some S) (hT : fs tp = some T) (hR : fs rp = some R)
    (hSn : S.length = n) (hTn : T.length = n) (hRn : R.length = n)
    (hp : ∀ d : List (Record Score),
      ((ext.predict d cfg.batch_size cfg.gpus cfg.num_workers
        cfg.disable_length_batching).1).length = d.length)
    (hpm : ∀ d : List (Record Score),
      ((ext.predict_mc d cfg.batch_size cfg.gpus cfg.mc_dropout
        cfg.num_workers cfg.disable_length_batching).1).length = d.length ∧
      ((ext.predict_mc d cfg.batch_size cfg.gpus cfg.mc_dropout
        cfg.num_workers cfg.disable_length_batching).2.1).length = d.length) :
    ∃ segs sys_score rest j,
      (run ext am fs cfg).2 =
        .success (segs ++ [OutLine.systemScore sys_score] ++ rest) j ∧
      segs.length = n ∧
      (∀ i (hi : i < segs.length), isSegIdx i (segs.get ⟨i, hi⟩)) ∧
      (∀ l ∈ segs, ∀ sc, l ≠ OutLine.systemScore sc) ∧
      (∀ l ∈ rest, ∃ p, l = OutLine.savedIn p) := by
  have hlen : (assembledData cfg.model S T R : List (Record Score)).length = n := by
    rw [assembledData_length, hSn, hTn, hRn]
    split <;> simp
  rw [run_snd_files ext am fs cfg sp tp rp S T R hs ht hr hd hS hT hR]
  cases hmc : cfg.mc_dropout.truthy with
  | true =>
    rw [finishPredict_snd_of_mc ext cfg _ hmc]
    obtain ⟨rest, j, heq, hrest⟩ := emitResults_shape cfg _ _ _
    rw [heq]
    refine ⟨_, _, rest, j, rfl, ?_, ?_, ?_, hrest⟩
    · rw [segLinesMC_length,
        (hpm (assembledData cfg.model S T R)).1,
        (hpm (assembledData cfg.model S T R)).2, hlen]
      simp
    · intro i hi
      obtain ⟨mean, std, hg⟩ := segLinesMC_get _ _ _ i hi
      rw [hg]
      exact rfl
    · intro l hl sc
      obtain ⟨i, mean, std, rfl⟩ := segLinesMC_shape _ _ _ l hl
      simp
  | false =>
    rw [finishPredict_snd_of_not_mc ext cfg _ hmc]
    obtain ⟨rest, j, heq, hrest⟩ := emitResults_shape cfg _ _ _
    rw [heq]
    refine ⟨_, _, rest, j, rfl, ?_, ?_, ?_, hrest⟩
    · rw [segLines_length, hp (assembledData cfg.model S T R), hlen]
      simp
    · intro i hi
      obtain ⟨sc, hg⟩ := segLines_get _ _ i hi
      rw [hg]
      exact rfl
    · intro l hl sc
      obtain ⟨i, sc2, rfl⟩ := segLines_shape _ _ l hl
      simp

theorem c7_stdout_segments_then_system_witness :
    ∃ segs sys_score rest j,
      (run sampleExtern [] evenFS sampleCfg).2 =
        Outcome.success
          (segs ++ [OutLine.systemScore sys_score] ++ rest) j ∧
      segs.length = 2 ∧
      (∀ i (hi : i < segs.length), isSegIdx i (segs.get ⟨i, hi⟩)) ∧
      (∀ l ∈ segs, ∀ sc, l ≠ OutLine.systemScore sc) ∧
      (∀ l ∈ rest, ∃ p, l = OutLine.savedIn p) :=
  c7_stdout_segments_then_system sampleExtern [] evenFS sampleCfg
    "src.txt" "mt.txt" "ref.txt" ["a1", "a2"] ["b1", "b2"] ["c1", "c2"] 2
    rfl rfl rfl rfl rfl rfl rfl rfl rfl rfl
    (fun d => by simp [sampleExtern])
    (fun d => ⟨by simp [sampleExtern], by simp [sampleExtern]⟩)

/-- The only files a run can open while reading data are the sources file,
the translations file and — only when the model name lacks `comet-qe` — the
references file. -/
theorem readAndScore_openFile {Score : Type} (ext : Extern Score) (fs : FS)
    (cfg : Config) (p : String)
    (h : Event.openFile p ∈ (readAndScore ext fs cfg).1) :
    cfg.sources = some p ∨ cfg.translations = some p ∨
      (inStr "comet-qe" cfg.model = false ∧ cfg.references = some p) := by
  unfold readAndScore at h
  cases hsc : cfg.sources with
  | none => simp [hsc] at h
  | some sp =>
    rw [hsc] at h
    simp only [] at h
    cases hfs : fs sp with
    | none =>
      rw [hfs] at h
      simp at h
      exact Or.inl (by rw [h])
    | some S =>
      rw [hfs] at h
      simp only [] at h
      cases htc : cfg.translations with
      | none =>
        rw [htc] at h
        simp at h
        exact Or.inl (by rw [h])
      | some tp =>
        rw [htc] at h
        simp only [] at h
        cases hft : fs tp with
        | none =>
          rw [hft] at h
          simp at h
          rcases h with h | h
          · exact Or.inl (by rw [h])
          · exact Or.inr (Or.inl (by rw [h]))
        | some T =>
          rw [hft] at h
          simp only [] at h
          cases hq : inStr "comet-qe" cfg.model with
          | true =>
            rw [if_pos hq, withEvents_fst, finishPredict_fst] at h
            simp at h
            rcases h with h | h
            · exact Or.inl (by rw [h])
            · exact Or.inr (Or.inl (by rw [h]))
          | false =>
            rw [if_neg (by rw [hq]; exact Bool.false_ne_true)] at h
            cases hrc : cfg.references with
            | none =>
              rw [hrc] at h
              simp at h
              rcases h with h | h
              · exact Or.inl (by rw [h])
              · exact Or.inr (Or.inl (by rw [h]))
            | some rp =>
              rw [hrc] at h
              simp only [] at h
              cases hfr : fs rp with
              | none =>
                rw [hfr] at h
                simp at h
                rcases h with h | h | h
                · exact Or.inl (by rw [h])
                · exact Or.inr (Or.inl (by rw [h]))
                · exact Or.inr (Or.inr ⟨rfl, by rw [h]⟩)
              | some R =>
                rw [hfr] at h
                simp only [] at h
                rw [withEvents_fst, finishPredict_fst] at h
                simp at h
                rcases h with h | h | h
                · exact Or.inl (by rw [h])
                · exact Or.inr (Or.inl (by rw [h]))
                · exact Or.inr (Or.inr ⟨rfl, by rw [h]⟩)

/-- When no SacreBLEU dataset is in play, every `openFile` event of a whole
run concerns the sources, translations or (non-reference-free models only)
references file. -/
theorem run_openFile_of_no_dataset {Score : Type} (ext : Extern Score)
    (am : List String) (fs : FS) (cfg : Config) (p : String)
    (hd : cfg.sacrebleu_dataset = none)
    (h : Event.openFile p ∈ (run ext am fs cfg).1) :
    cfg.sources = some p ∨ cfg.translations = some p ∨
      (inStr "comet-qe" cfg.model = false ∧ cfg.references = some p) := by
  unfold run at h
  rw [resolveDataset_none ext fs cfg hd] at h
  split at h
  · simp at h
  · split at h
    · rename_i out heq
      exact absurd heq (by simp)
    · rename_i evs cfg2 heq
      simp only [Except.ok.injEq, Prod.mk.injEq] at heq
      obtain ⟨he, hc⟩ := heq
      subst hc
      subst he
      split at h
      · simp at h
      · rw [withEvents_fst] at h
        simp only [List.nil_append] at h
        unfold loadAndScore at h
        split at h <;> rw [withEvents_fst] at h <;> simp at h <;>
          exact readAndScore_openFile ext fs cfg p h

/-- For a model without `comet-qe` in its name, the `i`-th assembled record
is the three-field record of the `i`-th stripped lines. -/
theorem assembledData_get_not_qe {Score : Type} (model : String)
    (S T R : List String) (hq : inStr "comet-qe" model = false)
    (i : Nat) (h1 : i < S.length) (h2 : i < T.length) (h3 : i < R.length)
    (h : i < (assembledData model S T R : List (Record Score)).length) :
    (assembledData model S T R : List (Record Score)).get ⟨i, h⟩ =
      [("src", Value.str (strip (S.get ⟨i, h1⟩))),
       ("mt", Value.str (strip (T.get ⟨i, h2⟩))),
       ("ref", Value.str (strip (R.get ⟨i, h3⟩)))] := by
  have e : (assembledData model S T R : List (Record Score)) =
      mkRecords3 (S.map strip) (T.map strip) (R.map strip) := by
    unfold assembledData
    rw [if_neg (by rw [hq]; exact Bool.false_ne_true)]
  revert h
  rw [e]
  intro h
  rw [mkRecords3_get (S.map strip) (T.map strip) (R.map strip) i h
    (by simpa using h1) (by simpa using h2) (by simpa using h3)]
  simp [List.get_eq_getElem]

/-- C6: for a model whose name lacks `comet-qe`, the `i`-th assembled record
maps `src`, `mt`, `ref` to the `i`-th whitespace-stripped lines of the
sources, translations and references files; for a model whose name contains
`comet-qe`, every assembled record has exactly the fields `src` and `mt`,
and a run never opens the references file. -/
theorem c6_record_fields_by_model {Score : Type} (m : String)
    (S T R : List String) :
    (inStr "comet-qe" m = false →
      ∀ i (h1 : i < S.length) (h2 : i < T.length) (h3 : i < R.length)
        (h : i < (assembledData m S T R : List (Record Score)).length),
        (assembledData m S T R : List (Record Score)).get ⟨i, h⟩ =
          [("src", Value.str (strip (S.get ⟨i, h1⟩))),
           ("mt", Value.str (strip (T.get ⟨i, h2⟩))),
           ("ref", Value.str (strip (R.get ⟨i, h3⟩)))]) ∧
    (inStr "comet-qe" m = true →
      (∀ r ∈ (assembledData m S T R : List (Record Score)),
        r.map Prod.fst = ["src", "mt"]) ∧
      (∀ (ext : Extern Score) (am : List String) (fs : FS) (cfg : Config)
        (rp : String),
        cfg.model = m → cfg.sacrebleu_dataset = none →
        cfg.references = some rp →
        cfg.sources ≠ some rp → cfg.translations ≠ some rp →
        Event.openFile rp ∉ (run ext am fs cfg).1)) := by
  constructor
  · intro hq i h1 h2 h3 h
    exact assembledData_get_not_qe m S T R hq i h1 h2 h3 h
  · intro hq
    constructor
    · intro r hr
      unfold assembledData at hr
      rw [if_pos hq] at hr
      exact mkRecords2_keys _ _ r hr
    · intro ext am fs cfg rp hm hd hr hsne htne hin
      rcases run_openFile_of_no_dataset ext am fs cfg rp hd hin with
        h | h | ⟨hfalse, -⟩
      · exact hsne h
      · exact htne h
      · rw [hm, hq] at hfalse
        exact absurd hfalse (by decide)

theorem c6_record_fields_by_model_witness :
    (assembledData "wmt20-comet-da" [" a1 "] ["b1"]
        ["c1"] : List (Record Int)).get ⟨0, by decide⟩ =
      [("src", Value.str "a1"), ("mt", Value.str "b1"),
       ("ref", Value.str "c1")] ∧
    Event.openFile "ref.txt" ∉
      (run sampleExtern [] sampleFS
        { sampleCfg with model := "wmt20-comet-qe-da" }).1 :=
  ⟨((@c6_record_fields_by_model Int "wmt20-comet-da" [" a1 "]
        ["b1"] ["c1"]).1
      (by decide) 0 (by decide) (by decide) (by decide) (by decide)).trans
      (by decide),
   ((@c6_record_fields_by_model Int "wmt20-comet-qe-da" [" a1 "]
        ["b1"] ["c1"]).2 (by decide)).2 sampleExtern [] sampleFS
      { sampleCfg with model := "wmt20-comet-qe-da" } "ref.txt"
      rfl rfl rfl (by decide) (by decide)⟩

end CometScore
